import Mathlib

/-!
Verification of the colour/contrast state module of the CCA (Colour Contrast
Analyser) frontend: the hex/RGB codec from `utils.ts`, the WCAG flag
computation and backend-state reconciliation from the two `store.ts`
variants, and the pick/copy lifecycles.

Strings are modelled through their character lists; JavaScript numbers
appearing here are integers (colour channels) or exact decimals (the
contrast ratio), embedded as `Int` and `ℚ`; `parseInt(s, 16)` is embedded
with `none` standing for `NaN`.
-/

/-- ASCII uppercase mapping, modelling JavaScript `toUpperCase` on the ASCII
range (the only characters produced by the codec). -/
def asciiUpper (c : Char) : Char :=
  if 97 ≤ c.toNat ∧ c.toNat ≤ 122 then Char.ofNat (c.toNat - 32) else c

/-- Uppercase form of a string (JavaScript `toUpperCase`, ASCII range). -/
def asciiUpperStr (s : String) : String :=
  String.mk (s.toList.map asciiUpper)

/-- White-space characters skipped by JavaScript `parseInt` (ECMA
StrWhiteSpaceChar), identified by code point. -/
def isJsWhitespace (c : Char) : Bool :=
  c.toNat == 9 || c.toNat == 10 || c.toNat == 11 || c.toNat == 12 ||
  c.toNat == 13 || c.toNat == 32 || c.toNat == 160 || c.toNat == 0x2028 ||
  c.toNat == 0x2029 || c.toNat == 0xFEFF

/-- Value of a radix-16 digit for `parseInt`: `0`-`9`, `a`-`f`, `A`-`F`
(by code point ranges 48-57, 97-102, 65-70). -/
def hexDigitVal (c : Char) : Option Nat :=
  if 48 ≤ c.toNat ∧ c.toNat ≤ 57 then some (c.toNat - 48)
  else if 97 ≤ c.toNat ∧ c.toNat ≤ 102 then some (c.toNat - 87)
  else if 65 ≤ c.toNat ∧ c.toNat ≤ 70 then some (c.toNat - 55)
  else none

/-- Whether a character is a radix-16 digit. -/
def isHexDigitChar (c : Char) : Bool := (hexDigitVal c).isSome

/-- Digit character produced by JavaScript `Number.prototype.toString(16)`:
`0`-`9` then lowercase `a`-`f`. -/
def digitCharJs (n : Nat) : Char :=
  if n < 10 then Char.ofNat (48 + n) else Char.ofNat (87 + n)

/-- Digit accumulation for base-16 printing; the fuel argument only bounds
the recursion depth (any fuel at least the printed number is enough). -/
def natToHex16Aux (fuel : Nat) (n : Nat) (acc : List Char) : List Char :=
  match fuel with
  | 0 => digitCharJs (n % 16) :: acc
  | fuel + 1 =>
    if n < 16 then digitCharJs n :: acc
    else natToHex16Aux fuel (n / 16) (digitCharJs (n % 16) :: acc)

/-- Digits of a natural number in base 16, most significant first, as
produced by JavaScript `toString(16)` on a non-negative integer. -/
def natToHex16 (n : Nat) : List Char := natToHex16Aux n n []

/-- JavaScript `toString(16)` on an integer: minus sign then the magnitude. -/
def intToHex16 (i : Int) : List Char :=
  if i < 0 then '-' :: natToHex16 i.natAbs else natToHex16 i.toNat

/-- JavaScript `padStart(2, '0')`. -/
def padStart2 (l : List Char) : List Char :=
  List.replicate (2 - l.length) '0' ++ l

/-- Greedy accumulation of radix-16 digits, stopping at the first character
that is not a digit (ECMA `parseInt`: longest digit prefix). -/
def parseHexLoop (acc : Nat) : List Char → Nat
  | [] => acc
  | c :: cs =>
    match hexDigitVal c with
    | some v => parseHexLoop (16 * acc + v) cs
    | none => acc

/-- Magnitude parse of ECMA `parseInt` with radix 16: `none` (NaN) when the
input does not start with a radix-16 digit. -/
def parseHexMag : List Char → Option Nat
  | [] => none
  | c :: cs =>
    match hexDigitVal c with
    | some v => some (parseHexLoop v cs)
    | none => none

/-- ECMA `parseInt` radix-16 prefix removal: a leading `0x` or `0X` is
discarded. -/
def strip0x (l : List Char) : List Char :=
  match l with
  | a :: b :: rest => if a = '0' ∧ (b = 'x' ∨ b = 'X') then rest else l
  | _ => l

/-- Shallow embedding of JavaScript `parseInt(s, 16)`: skip leading white
space, read an optional sign, discard a `0x`/`0X` prefix, then parse the
longest radix-16 digit prefix; `none` models `NaN`. -/
def parseIntHex (l : List Char) : Option Int :=
  match l.dropWhile isJsWhitespace with
  | [] => none
  | c :: cs =>
    if c = '-' then (parseHexMag (strip0x cs)).map (fun n => -(n : Int))
    else if c = '+' then (parseHexMag (strip0x cs)).map (fun n => (n : Int))
    else (parseHexMag (strip0x (c :: cs))).map (fun n => (n : Int))

/-- JavaScript `slice(a, b)` on the characters of a string, for the
non-negative in-range indices used by the codec. -/
def sliceChars (l : List Char) (a b : Nat) : List Char := (l.take b).drop a

/-- Rendering of a parsed channel inside a template literal: `NaN` renders
as the string `NaN`, an integer as its decimal form. -/
def renderChannel : Option Int → List Char
  | none => "NaN".toList
  | some i => (toString i).toList

/-- The three channel values extracted by `hexToRgb` in `utils.ts`:
`parseInt(hex.slice(1, 3), 16)` and likewise for slices 3-5 and 5-7. -/
def hexChannelVals (hex : String) : Option Int × Option Int × Option Int :=
  (parseIntHex (sliceChars hex.toList 1 3),
   parseIntHex (sliceChars hex.toList 3 5),
   parseIntHex (sliceChars hex.toList 5 7))

/-- `hexToRgb` from `utils.ts`: extracts the three channels by slicing and
`parseInt`, and returns the template string `r, g, b`. -/
def hexToRgb (hex : String) : String :=
  String.mk (renderChannel (hexChannelVals hex).1 ++ ", ".toList ++
             renderChannel (hexChannelVals hex).2.1 ++ ", ".toList ++
             renderChannel (hexChannelVals hex).2.2)

/-- One channel of `rgbToHex`:
`toString(16).padStart(2, '0').toUpperCase()`. -/
def hexByteJs (i : Int) : List Char := (padStart2 (intToHex16 i)).map asciiUpper

/-- `rgbToHex` from `utils.ts` (identical inline copies appear in `main.ts`
and both store variants): `#` followed by the three padded uppercase hex
bytes. -/
def rgbToHex (r g b : Int) : String :=
  String.mk ('#' :: (hexByteJs r ++ hexByteJs g ++ hexByteJs b))

/-- A valid 7-character `#RRGGBB` string: `#` followed by exactly six
radix-16 digits of either case. -/
def validHexB (s : String) : Bool :=
  match s.toList with
  | [] => false
  | c :: rest => c == '#' && rest.length == 6 && rest.all isHexDigitChar

/-- JavaScript template `r, g, b` over three integer channels. -/
def renderTriple (r g b : Int) : String :=
  toString r ++ ", " ++ toString g ++ ", " ++ toString b

/-- The five WCAG conformance flags kept by the event-driven UI store. -/
structure WcagFlags where
  level143Regular : Bool
  level143Large : Bool
  level146Regular : Bool
  level146Large : Bool
  level1411 : Bool
deriving DecidableEq

/-- Staged WCAG flag computation from `updateFromTauriStore` of the
event-driven store variant: all five flags are first set to `true`, then
`ratio < 7` clears `level146Regular`, `ratio < 4.5` clears
`level143Regular` and `level146Large`, and `ratio < 3` clears
`level143Large` and `level1411`; the three conditions are evaluated
independently, in that order. -/
def wcagFlags (ratio : ℚ) : WcagFlags :=
  let f0 : WcagFlags := ⟨true, true, true, true, true⟩
  let f1 := if ratio < 7 then { f0 with level146Regular := false } else f0
  let f2 := if ratio < 4.5 then
      { f1 with level143Regular := false, level146Large := false } else f1
  if ratio < 3 then { f2 with level143Large := false, level1411 := false }
  else f2

/-- Direct flag computation following the wording of the specification:
each flag is `ratio >= threshold` with threshold 7 for `level146Regular`,
4.5 for `level143Regular` and `level146Large`, 3 for `level143Large` and
`level1411`. -/
def wcagFlagsDirect (ratio : ℚ) : WcagFlags :=
  ⟨decide (4.5 ≤ ratio), decide (3 ≤ ratio), decide (7 ≤ ratio),
   decide (4.5 ≤ ratio), decide (3 ≤ ratio)⟩

/-- One-decimal display rounding of a ratio, as named by the specification
when it distinguishes the unrounded ratio from the display-rounded one. -/
def roundTo1 (r : ℚ) : ℚ := (round (10 * r) : ℤ) / 10

/-- Backend payload of the hex-based store variant (`store.ts`,
`ColorStore`): nullable hex strings for both roles. -/
structure ColorStoreHex where
  foreground : Option String
  background : Option String
  continue_mode : Bool
deriving DecidableEq

/-- Frontend mirror of the hex-based store variant (`store.ts`,
`ColorPickerStore`); the shape is shared with the RGB-tuple variant of the
same file history. -/
structure ColorPickerState where
  isPicking : Bool
  resultVisible : Bool
  foreground : String
  background : String
  foregroundRgb : String
  backgroundRgb : String
  copiedVisible : Bool
deriving DecidableEq

/-- Initial frontend state of `colorPickerStore`. -/
def colorPickerInit : ColorPickerState :=
  { isPicking := false, resultVisible := false, foreground := "",
    background := "", foregroundRgb := "", backgroundRgb := "",
    copiedVisible := false }

/-- JavaScript truthiness of a `string | null` value: `null` and the empty
string are falsy. -/
def truthyStr : Option String → Bool
  | none => false
  | some s => !(s == "")

namespace StoreTs

/-- `updateFromTauriStore` of the hex-based `store.ts`: each role is
applied only when its backend value is truthy; applying a role writes its
hex field, its converted RGB display field, and sets `resultVisible`. -/
def updateFromTauriStore (u : ColorPickerState) (store : ColorStoreHex) :
    ColorPickerState :=
  let u1 :=
    match store.foreground with
    | some f =>
      if f ≠ "" then
        { u with foreground := f, foregroundRgb := hexToRgb f,
                 resultVisible := true }
      else u
    | none => u
  match store.background with
  | some b =>
    if b ≠ "" then
      { u1 with background := b, backgroundRgb := hexToRgb b,
                resultVisible := true }
    else u1
  | none => u1

/-- Result payload of the backend `pick_color` command as declared in
`store.ts` (`ColorResult`). -/
structure ColorResult where
  foreground : Option (Int × Int × Int)
  background : Option (Int × Int × Int)
  continue_mode : Bool
deriving DecidableEq

/-- Outcome of the awaited `invoke` call: the promise either rejects or
resolves with a `ColorResult` payload. -/
inductive PickOutcome where
  | err
  | ok (res : ColorResult)
deriving DecidableEq

/-- State at the suspension point of `pickColor`, right after
`this.isPicking = true`. -/
def pickColorEntry (u : ColorPickerState) : ColorPickerState :=
  { u with isPicking := true }

/-- A complete run of `pickColor` from `store.ts`: `isPicking` is set on
entry, the `invoke` result is discarded (errors are only logged), and the
`finally` block clears `isPicking`; no other field is written. -/
def pickColorRun (u : ColorPickerState) (fg : Bool)
    (outcome : PickOutcome) : ColorPickerState :=
  let u1 := pickColorEntry u
  match fg, outcome with
  | _, _ => { u1 with isPicking := false }

/-- A complete run of `copyHex` from `store.ts`: on clipboard success the
notification flag is set; on failure the error is only logged. The delayed
`setTimeout` reset is modelled as the separate event `copyTimerFire`. -/
def copyHexRun (u : ColorPickerState) (isForeground : Bool) (ok : Bool) :
    ColorPickerState :=
  match isForeground with
  | _ => if ok then { u with copiedVisible := true } else u

/-- Firing of the 1500 ms `setTimeout` scheduled by `copyHex`. -/
def copyTimerFire (u : ColorPickerState) : ColorPickerState :=
  { u with copiedVisible := false }

end StoreTs

/-- Backend payload of the RGB-tuple store variant (`ColorStore` of the
tuple-based `store.ts` revision): both roles always carry a tuple. -/
structure ColorStoreRgb where
  foreground_rgb : Int × Int × Int
  background_rgb : Int × Int × Int
  continue_mode : Bool
deriving DecidableEq

namespace RgbStore

/-- `updateFromTauriStore` of the RGB-tuple store variant: both roles are
unconditionally converted to hex, their display strings stored, and
`resultVisible` set. -/
def updateFromTauriStore (u : ColorPickerState) (store : ColorStoreRgb) :
    ColorPickerState :=
  { u with
    foreground := rgbToHex store.foreground_rgb.1 store.foreground_rgb.2.1
        store.foreground_rgb.2.2,
    foregroundRgb := renderTriple store.foreground_rgb.1
        store.foreground_rgb.2.1 store.foreground_rgb.2.2,
    background := rgbToHex store.background_rgb.1 store.background_rgb.2.1
        store.background_rgb.2.2,
    backgroundRgb := renderTriple store.background_rgb.1
        store.background_rgb.2.1 store.background_rgb.2.2,
    resultVisible := true }

end RgbStore

/-- Backend payload of the event-driven store variant (`BackendStore`):
precomputed hex strings, dark flags and the rounded contrast ratio. -/
structure BackendStore where
  platform : String
  foreground_rgb : Int × Int × Int
  foreground_hex : String
  foreground_is_dark : Bool
  background_rgb : Int × Int × Int
  background_hex : String
  background_is_dark : Bool
  contrast_ratio_rounded : ℚ
  continue_mode : Bool

/-- Frontend mirror of the event-driven store variant (`UIStore`). -/
structure UIStoreState where
  platform : String
  isPicking : Bool
  foregroundRgb : String
  foregroundHex : String
  foregroundIsDark : Bool
  backgroundRgb : String
  backgroundHex : String
  backgroundIsDark : Bool
  contrastRatioText : String
  currentICCProfile : String
  level143Regular : Bool
  level143Large : Bool
  level146Regular : Bool
  level146Large : Bool
  level1411 : Bool
deriving DecidableEq

/-- The five WCAG flag fields of the event-driven mirror, collected. -/
def UIStoreState.flags (u : UIStoreState) : WcagFlags :=
  ⟨u.level143Regular, u.level143Large, u.level146Regular,
   u.level146Large, u.level1411⟩

/-- Display text `x:1` for the rounded ratio; the digit rendering of a
JavaScript number inside the template literal is abstracted by the `ℚ`
representation, and no claim depends on the rendered digits. -/
def ratioText (r : ℚ) : String := toString r ++ ":1"

namespace EvStore

/-- `updateFromTauriStore` of the event-driven store variant: overwrites
platform, both colour roles (RGB display string, hex, dark flag), the
displayed ratio, and recomputes the five WCAG flags by the staged
threshold checks (`wcagFlags`); `isPicking` and the ICC profile are not
touched. -/
def updateFromTauriStore (u : UIStoreState) (store : BackendStore) :
    UIStoreState :=
  let f := wcagFlags store.contrast_ratio_rounded
  { u with
    platform := store.platform,
    foregroundRgb := renderTriple store.foreground_rgb.1
        store.foreground_rgb.2.1 store.foreground_rgb.2.2,
    foregroundHex := store.foreground_hex,
    foregroundIsDark := store.foreground_is_dark,
    backgroundRgb := renderTriple store.background_rgb.1
        store.background_rgb.2.1 store.background_rgb.2.2,
    backgroundHex := store.background_hex,
    backgroundIsDark := store.background_is_dark,
    contrastRatioText := ratioText store.contrast_ratio_rounded,
    level143Regular := f.level143Regular,
    level143Large := f.level143Large,
    level146Regular := f.level146Regular,
    level146Large := f.level146Large,
    level1411 := f.level1411 }

/-- State at the suspension point of the event-driven `pickColor`. -/
def pickColorEntry (u : UIStoreState) : UIStoreState :=
  { u with isPicking := true }

/-- A complete run of the event-driven `pickColor`: the `invoke` result is
discarded, errors are only logged, and the `finally` block clears
`isPicking`; no other field is written. -/
def pickColorRun (u : UIStoreState) (fg : Bool) (resolved : Bool) :
    UIStoreState :=
  let u1 := pickColorEntry u
  match fg, resolved with
  | _, _ => { u1 with isPicking := false }

end EvStore

namespace DirectPicker

/-- Frontend state of the direct-result picker variant
(`ColorPickerStore` of the single-role file). -/
structure State where
  isPicking : Bool
  resultVisible : Bool
  hex : String
  rgb : String
  backgroundColor : String
  copiedVisible : Bool
deriving DecidableEq

/-- Outcome of the awaited `pick_color` invoke in the direct variant: the
promise rejects, or resolves with a payload whose `foreground` is a tuple
or null (the user cancelled the native picker). -/
inductive Outcome where
  | err
  | ok (foreground : Option (Int × Int × Int))
deriving DecidableEq

/-- A complete run of the direct-variant `pickColor`: `isPicking` is set on
entry; on a resolved non-null foreground the hex, rgb, preview colour and
`resultVisible` are written together; on a null sample or an error nothing
but `isPicking` changes; the `finally` block clears `isPicking`. -/
def pickColorRun (s : State) (oc : Outcome) : State :=
  let s1 := { s with isPicking := true }
  let s2 :=
    match oc with
    | .err => s1
    | .ok none => s1
    | .ok (some (r, g, b)) =>
      let hx := rgbToHex r g b
      { s1 with hex := hx, rgb := renderTriple r g b,
                backgroundColor := hx, resultVisible := true }
  { s2 with isPicking := false }

end DirectPicker

/-- One frontend event of a session over the shared `ColorPickerState`
mirror: a completed pick, a completed copy, the copy-notification timer, or
a backend push through either `updateFromTauriStore` variant. -/
inductive SessionOp where
  | pick (fg : Bool) (outcome : StoreTs.PickOutcome)
  | copyHex (isForeground : Bool) (ok : Bool)
  | copyTimer
  | pushHex (store : ColorStoreHex)
  | pushRgb (store : ColorStoreRgb)

/-- Effect of one session event on the mirror state. -/
def stepOp (u : ColorPickerState) : SessionOp → ColorPickerState
  | .pick fg oc => StoreTs.pickColorRun u fg oc
  | .copyHex isFg ok => StoreTs.copyHexRun u isFg ok
  | .copyTimer => StoreTs.copyTimerFire u
  | .pushHex st => StoreTs.updateFromTauriStore u st
  | .pushRgb st => RgbStore.updateFromTauriStore u st

/-- A session: the fold of a list of events from a starting state. -/
def runSession (u : ColorPickerState) (ops : List SessionOp) :
    ColorPickerState :=
  ops.foldl stepOp u

example : hexToRgb "#FFFFFF" = "255, 255, 255" := by decide
example : hexToRgb "#zzzzzz" = "NaN, NaN, NaN" := by decide
example : rgbToHex 255 255 255 = "#FFFFFF" := by decide
example : rgbToHex 0 10 171 = "#000AAB" := by decide
example : rgbToHex (-5) 0 300 = "#-50012C" := by decide
example : (wcagFlags 4.5).level143Regular = true := by norm_num [wcagFlags]
example : (wcagFlags 4.499999).level143Regular = false := by
  norm_num [wcagFlags]
example : roundTo1 4.499999 = 4.5 := by
  rw [roundTo1, round_eq]; norm_num [Int.floor_eq_iff]

/-- The staged flag computation agrees with the direct per-threshold form. -/
theorem wcag_staged_eq_direct (r : ℚ) : wcagFlags r = wcagFlagsDirect r := by
  unfold wcagFlags wcagFlagsDirect
  split_ifs with h1 h2 h3 <;>
    simp_all [WcagFlags.mk.injEq, eq_comm, decide_eq_true_eq,
      decide_eq_false_iff_not, not_le] <;>
    (repeat' constructor) <;> linarith

/-- C1: for every backend store payload (and any prior UI state), the five
WCAG flags produced by `updateFromTauriStore` via the staged threshold
checks equal the direct computation `ratio >= threshold` (7 for
`level146Regular`; 4.5 for `level143Regular` and `level146Large`; 3 for
`level143Large` and `level1411`) on the payload's ratio. -/
theorem c1_staged_flags_eq_direct (u : UIStoreState) (st : BackendStore) :
    (EvStore.updateFromTauriStore u st).flags =
      wcagFlagsDirect st.contrast_ratio_rounded := by
  rw [← wcag_staged_eq_direct]
  cases hw : wcagFlags st.contrast_ratio_rounded
  simp [EvStore.updateFromTauriStore, UIStoreState.flags, hw]

/-- C2: a ratio of exactly 4.5 yields `level143Regular = true` and
`level146Large = true`, a ratio of 4.499999 yields both flags `false`, and
the computation distinguishes the unrounded ratio from its one-decimal
display rounding (4.499999 rounds to 4.5, yet the flags differ). -/
theorem c2_threshold_boundary :
    (wcagFlags 4.5).level143Regular = true ∧
    (wcagFlags 4.5).level146Large = true ∧
    (wcagFlags 4.499999).level143Regular = false ∧
    (wcagFlags 4.499999).level146Large = false ∧
    wcagFlags 4.499999 ≠ wcagFlags (roundTo1 4.499999) := by
  have hr : roundTo1 4.499999 = 4.5 := by
    rw [roundTo1, round_eq]; norm_num [Int.floor_eq_iff]
  rw [hr]
  norm_num [wcagFlags, WcagFlags.mk.injEq]

/-- C5: both `updateFromTauriStore` variants are idempotent: applying the
same backend state twice yields the state of the first application. -/
theorem c5_update_idempotent :
    (∀ (u : ColorPickerState) (st : ColorStoreHex),
        StoreTs.updateFromTauriStore (StoreTs.updateFromTauriStore u st) st =
          StoreTs.updateFromTauriStore u st) ∧
    (∀ (u : UIStoreState) (st : BackendStore),
        EvStore.updateFromTauriStore (EvStore.updateFromTauriStore u st) st =
          EvStore.updateFromTauriStore u st) := by
  constructor
  · intro u st
    rcases st with ⟨fgo, bgo, cm⟩
    cases fgo <;> cases bgo <;>
      simp only [StoreTs.updateFromTauriStore] <;> split_ifs <;> rfl
  · intro u st
    rfl

/-- Pointwise implication between two flag records: every flag set in the
first is set in the second. -/
def flagLe (a b : WcagFlags) : Prop :=
  (a.level143Regular = true → b.level143Regular = true) ∧
  (a.level143Large = true → b.level143Large = true) ∧
  (a.level146Regular = true → b.level146Regular = true) ∧
  (a.level146Large = true → b.level146Large = true) ∧
  (a.level1411 = true → b.level1411 = true)

instance (a b : WcagFlags) : Decidable (flagLe a b) := by
  unfold flagLe; infer_instance

/-- C7: the flag computation is monotone in the ratio (raising the ratio
never clears a set flag), all five flags are set at ratio 21, and all five
are clear at ratio 1. -/
theorem c7_wcag_monotone (r1 r2 : ℚ) (h : r1 ≤ r2) :
    flagLe (wcagFlags r1) (wcagFlags r2) ∧
    wcagFlags 21 = ⟨true, true, true, true, true⟩ ∧
    wcagFlags 1 = ⟨false, false, false, false, false⟩ := by
  refine ⟨?_, by norm_num [wcagFlags], by norm_num [wcagFlags]⟩
  rw [wcag_staged_eq_direct r1, wcag_staged_eq_direct r2]
  unfold flagLe wcagFlagsDirect
  simp only [decide_eq_true_eq]
  exact ⟨fun h1 => le_trans h1 h, fun h1 => le_trans h1 h,
         fun h1 => le_trans h1 h, fun h1 => le_trans h1 h,
         fun h1 => le_trans h1 h⟩

/-- Witness for C7 at the concrete ratios 3 and 5. -/
theorem c7_wcag_monotone_witness :
    flagLe (wcagFlags 3) (wcagFlags 5) ∧
    wcagFlags 21 = ⟨true, true, true, true, true⟩ ∧
    wcagFlags 1 = ⟨false, false, false, false, false⟩ :=
  c7_wcag_monotone 3 5 (by norm_num)

/-- C10: in both event-driven store variants a complete run of `pickColor`
equals the prior state with only `isPicking` cleared — whatever the invoke
outcome — and the entry point sets `isPicking`; every colour field, the
ratio text and the WCAG flags are untouched. -/
theorem c10_pick_frame :
    (∀ (u : ColorPickerState) (fg : Bool) (oc : StoreTs.PickOutcome),
        StoreTs.pickColorRun u fg oc = { u with isPicking := false } ∧
        (StoreTs.pickColorEntry u).isPicking = true) ∧
    (∀ (u : UIStoreState) (fg resolved : Bool),
        EvStore.pickColorRun u fg resolved = { u with isPicking := false } ∧
        (EvStore.pickColorEntry u).isPicking = true) :=
  ⟨fun _ _ _ => ⟨rfl, rfl⟩, fun _ _ _ => ⟨rfl, rfl⟩⟩

/-- C4: a backend push in which a role is absent leaves that role's hex and
RGB display fields unchanged; applied to the fresh state, a push with
foreground `#FFFFFF` and null background leaves the background fields
untouched and sets `resultVisible`, the foreground hex and the foreground
RGB string. -/
theorem c4_partial_push_frame :
    (∀ (u : ColorPickerState) (st : ColorStoreHex), st.foreground = none →
        (StoreTs.updateFromTauriStore u st).foreground = u.foreground ∧
        (StoreTs.updateFromTauriStore u st).foregroundRgb = u.foregroundRgb) ∧
    (∀ (u : ColorPickerState) (st : ColorStoreHex), st.background = none →
        (StoreTs.updateFromTauriStore u st).background = u.background ∧
        (StoreTs.updateFromTauriStore u st).backgroundRgb = u.backgroundRgb) ∧
    StoreTs.updateFromTauriStore colorPickerInit
        ⟨some "#FFFFFF", none, false⟩ =
      { colorPickerInit with resultVisible := true, foreground := "#FFFFFF",
                             foregroundRgb := "255, 255, 255" } := by
  refine ⟨?_, ?_, by decide⟩
  · intro u st hf
    rcases st with ⟨fgo, bgo, cm⟩
    cases hf
    cases bgo <;> simp only [StoreTs.updateFromTauriStore] <;>
      (try split_ifs) <;> simp
  · intro u st hb
    rcases st with ⟨fgo, bgo, cm⟩
    cases hb
    cases fgo <;> simp only [StoreTs.updateFromTauriStore] <;>
      (try split_ifs) <;> simp

/-- Witness for C4 at a concrete state and a push with both roles null. -/
theorem c4_partial_push_frame_witness :
    (StoreTs.updateFromTauriStore colorPickerInit
        ⟨none, some "#000000", true⟩).foreground =
      colorPickerInit.foreground ∧
    (StoreTs.updateFromTauriStore colorPickerInit
        ⟨none, some "#000000", true⟩).foregroundRgb =
      colorPickerInit.foregroundRgb :=
  c4_partial_push_frame.1 colorPickerInit ⟨none, some "#000000", true⟩ rfl

/-- C6: a pick that resolves with a null sample for the requested role is a
no-op on the colour state: in the direct-result variant the displayed hex,
RGB string and `resultVisible` are exactly as before; in the event-driven
variant a resolve whose requested role is null likewise leaves both roles
and `resultVisible` untouched; in both, `isPicking` is false afterwards. -/
theorem c6_cancelled_pick_noop :
    (∀ (s : DirectPicker.State),
        (DirectPicker.pickColorRun s (.ok none)).hex = s.hex ∧
        (DirectPicker.pickColorRun s (.ok none)).rgb = s.rgb ∧
        (DirectPicker.pickColorRun s (.ok none)).resultVisible =
          s.resultVisible ∧
        (DirectPicker.pickColorRun s (.ok none)).isPicking = false) ∧
    (∀ (u : ColorPickerState) (fg : Bool) (res : StoreTs.ColorResult),
        (if fg then res.foreground else res.background) = none →
        (StoreTs.pickColorRun u fg (.ok res)).foreground = u.foreground ∧
        (StoreTs.pickColorRun u fg (.ok res)).background = u.background ∧
        (StoreTs.pickColorRun u fg (.ok res)).resultVisible =
          u.resultVisible ∧
        (StoreTs.pickColorRun u fg (.ok res)).isPicking = false) :=
  ⟨fun _ => ⟨rfl, rfl, rfl, rfl⟩, fun _ _ _ _ => ⟨rfl, rfl, rfl, rfl⟩⟩

/-- Witness for C6: a foreground pick resolving with both samples null. -/
theorem c6_cancelled_pick_noop_witness :
    (StoreTs.pickColorRun colorPickerInit true
        (.ok ⟨none, none, false⟩)).foreground =
      colorPickerInit.foreground ∧
    (StoreTs.pickColorRun colorPickerInit true
        (.ok ⟨none, none, false⟩)).background =
      colorPickerInit.background ∧
    (StoreTs.pickColorRun colorPickerInit true
        (.ok ⟨none, none, false⟩)).resultVisible =
      colorPickerInit.resultVisible ∧
    (StoreTs.pickColorRun colorPickerInit true
        (.ok ⟨none, none, false⟩)).isPicking = false :=
  c6_cancelled_pick_noop.2 colorPickerInit true ⟨none, none, false⟩ rfl

/-- One session event preserves a set `resultVisible` flag. -/
theorem stepOp_resultVisible (u : ColorPickerState) (op : SessionOp)
    (h : u.resultVisible = true) : (stepOp u op).resultVisible = true := by
  cases op with
  | pick fg oc =>
    simpa [stepOp, StoreTs.pickColorRun, StoreTs.pickColorEntry] using h
  | copyHex isFg ok =>
    simp only [stepOp, StoreTs.copyHexRun]
    split_ifs <;> simpa using h
  | copyTimer => simpa [stepOp, StoreTs.copyTimerFire] using h
  | pushHex st =>
    rcases st with ⟨fgo, bgo, cm⟩
    cases fgo <;> cases bgo <;>
      simp only [stepOp, StoreTs.updateFromTauriStore] <;>
      (try split_ifs) <;> simpa using h
  | pushRgb st => simp [stepOp, RgbStore.updateFromTauriStore]

/-- C8: `resultVisible` is monotone-true across sessions: if it is set,
then after any sequence of completed picks, copies, copy-timer firings and
backend pushes (through either update variant) it is still set. -/
theorem c8_resultVisible_monotone (u : ColorPickerState)
    (ops : List SessionOp) (h : u.resultVisible = true) :
    (runSession u ops).resultVisible = true := by
  induction ops generalizing u with
  | nil => exact h
  | cons op ops ih => exact ih _ (stepOp_resultVisible u op h)

/-- Witness for C8 on a concrete session of three events. -/
theorem c8_resultVisible_monotone_witness :
    (runSession { colorPickerInit with resultVisible := true }
        [SessionOp.pick true .err, SessionOp.copyHex true true,
         SessionOp.copyTimer]).resultVisible = true :=
  c8_resultVisible_monotone { colorPickerInit with resultVisible := true }
    [SessionOp.pick true .err, SessionOp.copyHex true true,
     SessionOp.copyTimer] rfl

/-- Facts about a radix-16 digit character: its value is below 16, printing
the value and uppercasing agrees with uppercasing the character, and the
character is not white space, a sign, or an `x`/`X`. -/
theorem hexDigit_props (c : Char) (v : Nat) (h : hexDigitVal c = some v) :
    v < 16 ∧ asciiUpper (digitCharJs v) = asciiUpper c ∧
    isJsWhitespace c = false ∧ c ≠ '-' ∧ c ≠ '+' ∧ c ≠ 'x' ∧ c ≠ 'X' := by
  unfold hexDigitVal at h
  have hc : Char.ofNat c.toNat = c := Char.ofNat_toNat c
  split_ifs at h with h1 h2 h3 <;> injection h with hv
  · obtain ⟨hl, hr⟩ := h1
    generalize hg : c.toNat = n at hl hr hv hc
    subst hv
    subst hc
    interval_cases n <;> exact (by decide)
  · obtain ⟨hl, hr⟩ := h2
    generalize hg : c.toNat = n at hl hr hv hc
    subst hv
    subst hc
    interval_cases n <;> exact (by decide)
  · obtain ⟨hl, hr⟩ := h3
    generalize hg : c.toNat = n at hl hr hv hc
    subst hv
    subst hc
    interval_cases n <;> exact (by decide)

/-- Base-16 printing of a number below 16 is a single digit, whatever the
fuel. -/
theorem natToHex16Aux_small (fuel n : Nat) (acc : List Char) (h : n < 16) :
    natToHex16Aux fuel n acc = digitCharJs n :: acc := by
  cases fuel with
  | zero => simp [natToHex16Aux, Nat.mod_eq_of_lt h]
  | succ f => simp [natToHex16Aux, h]

/-- One unfolding step of base-16 printing for a number of at least 16. -/
theorem natToHex16Aux_ge (fuel n : Nat) (acc : List Char) (hn : 16 ≤ n)
    (hf : 1 ≤ fuel) :
    natToHex16Aux fuel n acc =
      natToHex16Aux (fuel - 1) (n / 16) (digitCharJs (n % 16) :: acc) := by
  obtain ⟨f, rfl⟩ : ∃ f, fuel = f + 1 := ⟨fuel - 1, by omega⟩
  simp [natToHex16Aux, Nat.not_lt.2 hn]

/-- Base-16 printing of a two-digit value with nonzero leading digit. -/
theorem natToHex16_pair (v1 v2 : Nat) (h1 : v1 < 16) (h2 : v2 < 16)
    (h0 : v1 ≠ 0) :
    natToHex16 (16 * v1 + v2) = [digitCharJs v1, digitCharJs v2] := by
  have hdiv : (16 * v1 + v2) / 16 = v1 := by omega
  have hmod : (16 * v1 + v2) % 16 = v2 := by omega
  unfold natToHex16
  rw [natToHex16Aux_ge _ _ _ (by omega) (by omega), hdiv, hmod,
      natToHex16Aux_small _ _ _ h1]

/-- Printing the byte `16 * v1 + v2` of two digit characters back through
pad-and-uppercase yields the uppercased characters. -/
theorem hexByteJs_pair (c1 c2 : Char) (v1 v2 : Nat)
    (h1 : hexDigitVal c1 = some v1) (h2 : hexDigitVal c2 = some v2) :
    hexByteJs ((16 * v1 + v2 : Nat) : Int) =
      [asciiUpper c1, asciiUpper c2] := by
  obtain ⟨hv1, hup1, -, -, -, -, -⟩ := hexDigit_props c1 v1 h1
  obtain ⟨hv2, hup2, -, -, -, -, -⟩ := hexDigit_props c2 v2 h2
  have hnn : ¬ ((16 * v1 + v2 : Nat) : Int) < 0 := by omega
  unfold hexByteJs intToHex16
  rw [if_neg hnn, Int.toNat_natCast]
  rcases Nat.eq_zero_or_pos v1 with h0 | h0
  · subst h0
    have hz : (16 * 0 + v2) = v2 := by omega
    rw [hz]
    unfold natToHex16
    rw [natToHex16Aux_small _ _ _ hv2]
    have hd0 : ('0' : Char) = digitCharJs 0 := by decide
    simp only [padStart2, List.length_cons, List.length_nil, List.map]
    norm_num
    rw [hd0]
    exact ⟨hup1, hup2⟩
  · rw [natToHex16_pair v1 v2 hv1 hv2 (by omega)]
    simp only [padStart2, List.length_cons, List.length_nil, List.map]
    norm_num
    exact ⟨hup1, hup2⟩

/-- `parseInt` on a two-digit radix-16 string returns its value. -/
theorem parseIntHex_pair (c1 c2 : Char) (v1 v2 : Nat)
    (h1 : hexDigitVal c1 = some v1) (h2 : hexDigitVal c2 = some v2) :
    parseIntHex [c1, c2] = some ((16 * v1 + v2 : Nat) : Int) := by
  obtain ⟨hv1, -, hws1, hm1, hp1, -, -⟩ := hexDigit_props c1 v1 h1
  obtain ⟨-, -, -, -, -, hx2, hX2⟩ := hexDigit_props c2 v2 h2
  have hdrop : List.dropWhile isJsWhitespace [c1, c2] = [c1, c2] := by
    simp [List.dropWhile, hws1]
  have hstrip : strip0x [c1, c2] = [c1, c2] := by
    show (if c1 = '0' ∧ (c2 = 'x' ∨ c2 = 'X') then ([] : List Char)
          else [c1, c2]) = [c1, c2]
    rw [if_neg]
    rintro ⟨-, hx | hX⟩
    · exact hx2 hx
    · exact hX2 hX
  unfold parseIntHex
  rw [hdrop]
  simp only [if_neg hm1, if_neg hp1, hstrip]
  simp [parseHexMag, h1, parseHexLoop, h2]

/-- A six-element list is literally six characters. -/
theorem exists_six (l : List Char) (h : l.length = 6) :
    ∃ a b c d e f, l = [a, b, c, d, e, f] := by
  rcases l with _ | ⟨a, _ | ⟨b, _ | ⟨c, _ | ⟨d, _ | ⟨e, _ | ⟨f, _ | ⟨g, t⟩⟩⟩⟩⟩⟩⟩ <;>
    simp_all

/-- C3: for every valid 7-character `#RRGGBB` string (hex digits in either
case) the three channels extracted by `hexToRgb` parse successfully, and
formatting them back with `rgbToHex` returns exactly the uppercase form of
the input; the hex to RGB to hex composite is the identity up to case on
all 16,777,216 valid colour values. -/
theorem c3_hex_roundtrip (s : String) (h : validHexB s = true) :
    ∃ r g b : Int, hexChannelVals s = (some r, some g, some b) ∧
      rgbToHex r g b = asciiUpperStr s := by
  unfold validHexB at h
  cases hl : s.toList with
  | nil => rw [hl] at h; exact absurd h (by simp)
  | cons c rest =>
    rw [hl] at h
    simp only [Bool.and_eq_true, beq_iff_eq, List.all_eq_true] at h
    obtain ⟨⟨hc, hlen⟩, hall⟩ := h
    subst hc
    obtain ⟨c1, c2, c3, c4, c5, c6, rfl⟩ := exists_six rest hlen
    obtain ⟨v1, hv1⟩ := Option.isSome_iff_exists.mp (hall c1 (by simp))
    obtain ⟨v2, hv2⟩ := Option.isSome_iff_exists.mp (hall c2 (by simp))
    obtain ⟨v3, hv3⟩ := Option.isSome_iff_exists.mp (hall c3 (by simp))
    obtain ⟨v4, hv4⟩ := Option.isSome_iff_exists.mp (hall c4 (by simp))
    obtain ⟨v5, hv5⟩ := Option.isSome_iff_exists.mp (hall c5 (by simp))
    obtain ⟨v6, hv6⟩ := Option.isSome_iff_exists.mp (hall c6 (by simp))
    refine ⟨((16 * v1 + v2 : Nat) : Int), ((16 * v3 + v4 : Nat) : Int),
            ((16 * v5 + v6 : Nat) : Int), ?_, ?_⟩
    · unfold hexChannelVals
      rw [hl]
      have s13 : sliceChars ['#', c1, c2, c3, c4, c5, c6] 1 3 = [c1, c2] := rfl
      have s35 : sliceChars ['#', c1, c2, c3, c4, c5, c6] 3 5 = [c3, c4] := rfl
      have s57 : sliceChars ['#', c1, c2, c3, c4, c5, c6] 5 7 = [c5, c6] := rfl
      rw [s13, s35, s57, parseIntHex_pair c1 c2 v1 v2 hv1 hv2,
          parseIntHex_pair c3 c4 v3 v4 hv3 hv4,
          parseIntHex_pair c5 c6 v5 v6 hv5 hv6]
    · unfold rgbToHex asciiUpperStr
      rw [hl]
      apply congrArg
      rw [hexByteJs_pair c1 c2 v1 v2 hv1 hv2,
          hexByteJs_pair c3 c4 v3 v4 hv3 hv4,
          hexByteJs_pair c5 c6 v5 v6 hv5 hv6]
      have hhash : asciiUpper '#' = '#' := by decide
      simp [hhash]

/-- Witness for C3 at the mixed-case string `#aBc012`. -/
theorem c3_hex_roundtrip_witness :
    ∃ r g b : Int, hexChannelVals "#aBc012" = (some r, some g, some b) ∧
      rgbToHex r g b = asciiUpperStr "#aBc012" :=
  c3_hex_roundtrip "#aBc012" (by decide)

/-- C9 counterexample: `#zzzzzz` is malformed (non-hex digits after `#`),
yet `hexToRgb` does not fail: it returns the fabricated channel string
`NaN, NaN, NaN`. -/
theorem c9_counterexample :
    validHexB "#zzzzzz" = false ∧ hexToRgb "#zzzzzz" = "NaN, NaN, NaN" := by
  decide

/-- C9 amended: `hexToRgb` performs no validation and never signals an
`InvalidFormat` error; on malformed input it still returns the template
string assembled from the `parseInt` of the three slices — `NaN`
components for non-hex text, partial parses for partially hex text, and
`NaN` for missing characters. -/
theorem c9_no_validation :
    hexToRgb "" = "NaN, NaN, NaN" ∧
    hexToRgb "#zzzzzz" = "NaN, NaN, NaN" ∧
    hexToRgb "#12345z" = "18, 52, 5" ∧
    hexToRgb "#F" = "15, NaN, NaN" := by
  decide
